import Mathlib

/-!
Shallow embedding of the Korea FSS Finlife client
(src/src/services/KoreaFssFinlifeService.ts) and of the example driver
that joins the two returned lists (src/unnamed/part_000).

Modelling conventions:
* a JavaScript value that may be undefined is an Option;
* the axios response body is an Option Envelope (undefined body, body
  without a result object, and a full envelope are all representable);
* a rejected promise / thrown exception is the error side of Except;
  JsError distinguishes the typed KoreaFssFinlifeServiceError from the
  generic TypeError raised by dereferencing undefined;
* query parameters are a record of optional fields; serialization drops
  fields bound to undefined, as the axios params serializer does.
-/

namespace KoreaFss

/-- Enum FinancialGroupCode from the source (constructor names romanized:
eunhaeng = 은행 bank, yeosinJeonmun = 여신전문 credit finance,
jeochukEunhaeng = 저축은행 savings bank, boheom = 보험 insurance,
geumyungTuja = 금융투자 financial investment). -/
inductive FinancialGroupCode
  | eunhaeng
  | yeosinJeonmun
  | jeochukEunhaeng
  | boheom
  | geumyungTuja
deriving DecidableEq, Repr

/-- Wire value of each FinancialGroupCode member, as in the source enum. -/
def FinancialGroupCode.code : FinancialGroupCode → String
  | .eunhaeng => "020000"
  | .yeosinJeonmun => "030200"
  | .jeochukEunhaeng => "030300"
  | .boheom => "050000"
  | .geumyungTuja => "060000"

/-- Enum ApiResponseCode from the source: the client's status-code taxonomy. -/
inductive ApiResponseCode
  | SUCCESS
  | INVALID_AUTH_KEY
  | SUSPENDED_AUTH_KEY
  | DELETED_AUTH_KEY
  | SAMPLE_AUTH_KEY
  | EXCEEDED_DAILY_SEARCH_LIMIT
  | INVALID_IP
  | MISSING_REQUEST_PARAMETER
  | INVALID_REQUEST_PARAMETER
  | SYSTEM_ERROR
deriving DecidableEq, Repr

/-- Wire value of each ApiResponseCode member, as in the source enum. -/
def ApiResponseCode.code : ApiResponseCode → String
  | .SUCCESS => "000"
  | .INVALID_AUTH_KEY => "010"
  | .SUSPENDED_AUTH_KEY => "011"
  | .DELETED_AUTH_KEY => "012"
  | .SAMPLE_AUTH_KEY => "013"
  | .EXCEEDED_DAILY_SEARCH_LIMIT => "020"
  | .INVALID_IP => "021"
  | .MISSING_REQUEST_PARAMETER => "100"
  | .INVALID_REQUEST_PARAMETER => "101"
  | .SYSTEM_ERROR => "900"

/-- All members of the ApiResponseCode enum, in source order. -/
def ApiResponseCode.all : List ApiResponseCode :=
  [.SUCCESS, .INVALID_AUTH_KEY, .SUSPENDED_AUTH_KEY, .DELETED_AUTH_KEY,
   .SAMPLE_AUTH_KEY, .EXCEEDED_DAILY_SEARCH_LIMIT, .INVALID_IP,
   .MISSING_REQUEST_PARAMETER, .INVALID_REQUEST_PARAMETER, .SYSTEM_ERROR]

/-- Interface FinancialCompany from the source (base record). -/
structure FinancialCompany where
  dcls_month : String
  fin_co_no : String
  kor_co_nm : String
  dcls_chrg_man : String
  homp_url : String
  cal_tel : String
deriving DecidableEq, Repr

/-- Interface FinancialCompanyOptions from the source (option record). -/
structure FinancialCompanyOptions where
  dcls_month : String
  fin_co_no : String
  area_cd : String
  area_nm : String
  exis_yn : String
deriving DecidableEq, Repr

/-- Fields of the result object inside the ApiResponse envelope of the
companySearch endpoint. The declared interface names the message field
err_message, while the interceptor reads err_msg; a JSON body can carry
either (or neither), so both are optional here, as are err_cd and the
pagination fields, since an arbitrary wire object need not include them. -/
structure ResultFields where
  err_cd : Option String
  err_message : Option String
  err_msg : Option String
  total_count : Option Int
  max_page_no : Option Int
  now_page_no : Option Int
  baseList : List FinancialCompany
  optionList : List FinancialCompanyOptions
deriving DecidableEq, Repr

/-- Interface ApiResponse from the source: the body wraps an optional
result object (a body that is an object but lacks result is
representable as result := none). -/
structure Envelope where
  result : Option ResultFields
deriving DecidableEq, Repr

/-- Query parameters of an outgoing request after axios merges the
instance-level params (auth, set in the constructor) with the per-call
params (topFinGrpNo, financeCd, pageNo). A field that the source binds
to undefined is none. -/
structure RequestParams where
  auth : Option String
  topFinGrpNo : Option String
  financeCd : Option String
  pageNo : Option Nat
deriving DecidableEq, Repr

/-- Serialization of query parameters as the axios params serializer does
it: fields bound to undefined are omitted entirely (never sent as an
empty string). -/
def serializeParams (p : RequestParams) : List (String × String) :=
  (match p.auth with | some v => [("auth", v)] | none => []) ++
  (match p.topFinGrpNo with | some v => [("topFinGrpNo", v)] | none => []) ++
  (match p.financeCd with | some v => [("financeCd", v)] | none => []) ++
  (match p.pageNo with | some v => [("pageNo", toString v)] | none => [])

/-- Outcome of a JavaScript throw: either the typed
KoreaFssFinlifeServiceError built by the interceptor (carrying the code,
message and request params it was constructed with), or the generic
TypeError raised by reading a property of undefined. -/
inductive JsError
  | typeError
  | serviceError (code : Option String) (message : Option String)
      (requestParams : RequestParams)
deriving DecidableEq, Repr

/-- Class KoreaFssFinlifeService: the only state fixed at construction is
the authentication key placed in the axios instance defaults
(baseURL aside, which carries no behavior here). -/
structure KoreaFssFinlifeService where
  authKey : Option String
deriving DecidableEq, Repr

namespace KoreaFssFinlifeService

/-- Constructor of KoreaFssFinlifeService: reads
process.env.FSS_OPEN_API_KEY once and stores it in the instance params. -/
def create (fssOpenApiKey : Option String) : KoreaFssFinlifeService :=
  { authKey := fssOpenApiKey }

/-- Response interceptor installed in the constructor. Mirrors
  if (response.data?.result?.err_cd !== ApiResponseCode.SUCCESS) \x7b
    throw new KoreaFssFinlifeServiceError(
      response.data.result.err_cd, response.data.result.err_msg,
      response.config.params);
  \x7d
  return response;
The guard uses optional chaining, so a missing body or missing result
object takes the throw branch, where the unguarded accesses
response.data.result.err_cd / .err_msg dereference undefined and raise a
TypeError instead of the typed error. -/
def interceptResponse (data : Option Envelope) (params : RequestParams) :
    Except JsError (Option Envelope) :=
  if (data.bind Envelope.result).bind ResultFields.err_cd
      = some ApiResponseCode.SUCCESS.code then
    Except.ok data
  else
    match data with
    | none => Except.error JsError.typeError
    | some env =>
      match env.result with
      | none => Except.error JsError.typeError
      | some r => Except.error (JsError.serviceError r.err_cd r.err_msg params)

/-- Arguments of getFinancialCompanies: groupCode is required, financeCode
and pageNo are optional (none models an omitted property). -/
structure GetFinancialCompaniesArgs where
  groupCode : FinancialGroupCode
  financeCode : Option String
  pageNo : Option Nat
deriving DecidableEq, Repr

/-- Query parameters of the outgoing getFinancialCompanies request: the
instance-level auth key merged with the per-call params
topFinGrpNo := groupCode, financeCd := financeCode, and pageNo with its
destructuring default of 1 applied when the property is omitted. -/
def requestParams (svc : KoreaFssFinlifeService)
    (args : GetFinancialCompaniesArgs) : RequestParams :=
  { auth := svc.authKey
    topFinGrpNo := some args.groupCode.code
    financeCd := args.financeCode
    pageNo := some (args.pageNo.getD 1) }

/-- Method getFinancialCompanies, as a function of the response body the
server sends back for the constructed request: the response first passes
through the interceptor, then .then((res) => res.data.result) projects
the result object out of the envelope. -/
def getFinancialCompanies (svc : KoreaFssFinlifeService)
    (args : GetFinancialCompaniesArgs) (data : Option Envelope) :
    Except JsError (Option ResultFields) :=
  let params := svc.requestParams args
  match interceptResponse data params with
  | Except.error e => Except.error e
  | Except.ok none => Except.error JsError.typeError
  | Except.ok (some env) => Except.ok env.result

end KoreaFssFinlifeService

/-! Join helper from the example driver (src/unnamed/part_000):
  const optionsByCompanyCode = keyBy(optionList, "fin_co_no");
  const bankList = baseList.map((bank) => (\x7b
    ...bank, options: optionsByCompanyCode[bank.fin_co_no] \x7d));
lodash keyBy builds a plain object keyed by the given property; writing a
duplicate key overwrites the previous value (last write wins) while the
key keeps its first insertion position. The object is modelled as an
association list with exactly that insertion discipline. -/

/-- Insertion step of lodash keyBy on a plain object: an existing key has
its value overwritten in place, a new key is appended. -/
def insertReplace (m : List (String × FinancialCompanyOptions)) (k : String)
    (v : FinancialCompanyOptions) : List (String × FinancialCompanyOptions) :=
  if m.any (fun p => p.1 = k) then
    m.map (fun p => if p.1 = k then (k, v) else p)
  else
    m ++ [(k, v)]

/-- Model of keyBy(optionList, "fin_co_no"). -/
def keyBy (l : List FinancialCompanyOptions) :
    List (String × FinancialCompanyOptions) :=
  l.foldl (fun m o => insertReplace m o.fin_co_no o) []

/-- Property read optionsByCompanyCode[k] on the keyBy object: the value
stored under k, or undefined when the key is absent. -/
def lookupKey (m : List (String × FinancialCompanyOptions)) (k : String) :
    Option FinancialCompanyOptions :=
  (m.find? (fun p => p.1 = k)).map Prod.snd

/-- Shape of one merged record: every field of the base record spread in,
plus the options property (undefined when no option entry matches). -/
structure MergedBank where
  dcls_month : String
  fin_co_no : String
  kor_co_nm : String
  dcls_chrg_man : String
  homp_url : String
  cal_tel : String
  options : Option FinancialCompanyOptions
deriving DecidableEq, Repr

/-- Spread of a base record together with an options value. -/
def MergedBank.ofBase (bank : FinancialCompany)
    (opts : Option FinancialCompanyOptions) : MergedBank :=
  { dcls_month := bank.dcls_month
    fin_co_no := bank.fin_co_no
    kor_co_nm := bank.kor_co_nm
    dcls_chrg_man := bank.dcls_chrg_man
    homp_url := bank.homp_url
    cal_tel := bank.cal_tel
    options := opts }

/-- The whole join of the example driver: group the option list by company
code, then annotate each base record with its option entry. -/
def mergeJoin (baseList : List FinancialCompany)
    (optionList : List FinancialCompanyOptions) : List MergedBank :=
  let optionsByCompanyCode := keyBy optionList
  baseList.map (fun bank =>
    MergedBank.ofBase bank (lookupKey optionsByCompanyCode bank.fin_co_no))

deriving instance DecidableEq for Except

/-! Concrete sample data used to instantiate the theorems below. -/

/-- Sample base record, after the example scenario of the upstream docs. -/
def sampleCompany : FinancialCompany :=
  { dcls_month := "202201", fin_co_no := "0010001", kor_co_nm := "A bank",
    dcls_chrg_man := "someone", homp_url := "https://a.example",
    cal_tel := "1234" }

/-- Sample option record matching sampleCompany by fin_co_no. -/
def sampleOption : FinancialCompanyOptions :=
  { dcls_month := "202201", fin_co_no := "0010001", area_cd := "A",
    area_nm := "Seoul", exis_yn := "Y" }

/-- Sample option record with a different fin_co_no. -/
def sampleOptionB : FinancialCompanyOptions :=
  { dcls_month := "202201", fin_co_no := "0010002", area_cd := "B",
    area_nm := "Busan", exis_yn := "N" }

/-- Successful envelope result: err_cd is the success sentinel. -/
def successResult : ResultFields :=
  { err_cd := some "000", err_message := some "ok", err_msg := none,
    total_count := some 2, max_page_no := some 1, now_page_no := some 1,
    baseList := [sampleCompany], optionList := [sampleOption, sampleOptionB] }

/-- Failing envelope of the example failure scenario: err_cd "010"
(invalid key), with the server message carried under the field name
err_message that the ApiResponse interface declares. -/
def failingEnvelope010 : Envelope :=
  ⟨some { err_cd := some "010", err_message := some "invalid auth key",
          err_msg := none, total_count := none, max_page_no := none,
          now_page_no := none, baseList := [], optionList := [] }⟩

/-- Failing result with the upstream internal system error code. -/
def failingResult900 : ResultFields :=
  { err_cd := some "900", err_message := none, err_msg := some "boom",
    total_count := none, max_page_no := none, now_page_no := none,
    baseList := [], optionList := [] }

end KoreaFss

namespace KoreaFss

open KoreaFssFinlifeService

/-! Theorems about the client. -/

/-- C7: the client's status-code taxonomy is exactly the closed set of ten
values 000, 010, 011, 012, 013, 020, 021, 100, 101, 900 (success,
invalid/suspended/deleted/sample authentication key, quota exceeded,
unauthorized IP, missing parameter, malformed parameter, upstream system
error), with no other members and no repetition. -/
theorem apiResponseCode_closed_taxonomy :
    (∀ c : ApiResponseCode, c ∈ ApiResponseCode.all) ∧
    ApiResponseCode.all.map ApiResponseCode.code =
      ["000", "010", "011", "012", "013", "020", "021", "100", "101", "900"] ∧
    (ApiResponseCode.all.map ApiResponseCode.code).Nodup := by
  refine ⟨fun c => ?_, by decide, by decide⟩
  cases c <;> simp [ApiResponseCode.all]

/-- C2: when the envelope's err_cd is the success sentinel,
getFinancialCompanies returns exactly the envelope's result object: the
pagination fields and the two lists are the server's values, unmodified
and in server order. -/
theorem getFinancialCompanies_success_unwrapped
    (svc : KoreaFssFinlifeService) (args : GetFinancialCompaniesArgs)
    (env : Envelope) (r : ResultFields)
    (hres : env.result = some r)
    (hcd : r.err_cd = some ApiResponseCode.SUCCESS.code) :
    svc.getFinancialCompanies args (some env) = Except.ok (some r) := by
  simp [getFinancialCompanies, interceptResponse, hres, hcd]

/-- C2 witness: a concrete successful envelope comes back unwrapped. -/
theorem getFinancialCompanies_success_unwrapped_witness :
    (create (some "key")).getFinancialCompanies
        ⟨FinancialGroupCode.eunhaeng, none, some 1⟩ (some ⟨some successResult⟩)
      = Except.ok (some successResult) :=
  getFinancialCompanies_success_unwrapped _ _ _ successResult rfl rfl

/-- C4: an omitted pageNo is sent as 1 (the destructuring default) and an
explicit pageNo n is passed through unchanged in the outgoing request. -/
theorem pageNo_default_and_passthrough (svc : KoreaFssFinlifeService)
    (gc : FinancialGroupCode) (fc : Option String) :
    (svc.requestParams ⟨gc, fc, none⟩).pageNo = some 1 ∧
    ∀ n : Nat, (svc.requestParams ⟨gc, fc, some n⟩).pageNo = some n :=
  ⟨rfl, fun _ => rfl⟩

/-- C5: every outgoing request of a client, over arbitrarily many
consecutive calls with arbitrary arguments, carries the auth key fixed at
construction in its query parameters. -/
theorem auth_key_on_every_request (k : Option String)
    (calls : List GetFinancialCompaniesArgs) (p : RequestParams)
    (hp : p ∈ calls.map ((create k).requestParams)) :
    p.auth = k := by
  obtain ⟨a, -, rfl⟩ := List.mem_map.mp hp
  rfl

/-- C5 witness: the first of two concrete consecutive calls carries the
constructed client's key. -/
theorem auth_key_on_every_request_witness :
    ((create (some "key")).requestParams
        ⟨FinancialGroupCode.eunhaeng, none, none⟩).auth = some "key" :=
  auth_key_on_every_request (some "key")
    [⟨FinancialGroupCode.eunhaeng, none, none⟩,
     ⟨FinancialGroupCode.boheom, some "0010001", some 3⟩] _ (by decide)

/-- C6: any two well-formed responses with non-success codes take the same
single failure path of the interceptor: each produces the typed service
error built from exactly its err_cd, its err_msg and the request params,
with no branching on which particular non-success code was received. -/
theorem nonSuccess_uniform_failure_path
    (r₁ r₂ : ResultFields) (params : RequestParams)
    (h₁ : r₁.err_cd ≠ some ApiResponseCode.SUCCESS.code)
    (h₂ : r₂.err_cd ≠ some ApiResponseCode.SUCCESS.code) :
    interceptResponse (some ⟨some r₁⟩) params
      = Except.error (JsError.serviceError r₁.err_cd r₁.err_msg params) ∧
    interceptResponse (some ⟨some r₂⟩) params
      = Except.error (JsError.serviceError r₂.err_cd r₂.err_msg params) := by
  constructor <;> simp [interceptResponse, h₁, h₂]

/-- C6 witness: codes 010 and 900 produce the same shape of typed error. -/
theorem nonSuccess_uniform_failure_path_witness :
    interceptResponse (some failingEnvelope010)
        { auth := some "key", topFinGrpNo := some "020000",
          financeCd := none, pageNo := some 1 }
      = Except.error (JsError.serviceError (some "010") none
          { auth := some "key", topFinGrpNo := some "020000",
            financeCd := none, pageNo := some 1 }) ∧
    interceptResponse (some ⟨some failingResult900⟩)
        { auth := some "key", topFinGrpNo := some "020000",
          financeCd := none, pageNo := some 1 }
      = Except.error (JsError.serviceError (some "900") (some "boom")
          { auth := some "key", topFinGrpNo := some "020000",
            financeCd := none, pageNo := some 1 }) :=
  nonSuccess_uniform_failure_path _ failingResult900 _ (by decide) (by decide)

/-- C9: a response body with no result object (body undefined, or object
without result) is classified non-success by the optional-chained guard,
and the subsequent unguarded property accesses raise the generic
TypeError instead of the typed service error. -/
theorem malformed_envelope_generic_typeError
    (data : Option Envelope) (params : RequestParams)
    (h : data.bind Envelope.result = none) :
    interceptResponse data params = Except.error JsError.typeError := by
  cases data with
  | none => rfl
  | some env =>
    have henv : env.result = none := by simpa using h
    simp [interceptResponse, henv]

/-- C9 witness: an HTTP-success body that is an object without a result
field raises the TypeError. -/
theorem malformed_envelope_generic_typeError_witness :
    interceptResponse (some ⟨none⟩)
        { auth := none, topFinGrpNo := none, financeCd := none, pageNo := none }
      = Except.error JsError.typeError :=
  malformed_envelope_generic_typeError (some ⟨none⟩) _ rfl

/-- C10: when financeCode is omitted the financeCd parameter is bound to
undefined and never serialized (in particular not as an empty string),
while topFinGrpNo and pageNo are always bound to defined values. -/
theorem financeCd_absent_when_omitted (svc : KoreaFssFinlifeService)
    (gc : FinancialGroupCode) (pn : Option Nat) :
    (svc.requestParams ⟨gc, none, pn⟩).financeCd = none ∧
    (svc.requestParams ⟨gc, none, pn⟩).topFinGrpNo = some gc.code ∧
    (svc.requestParams ⟨gc, none, pn⟩).pageNo = some (pn.getD 1) ∧
    ∀ kv ∈ serializeParams (svc.requestParams ⟨gc, none, pn⟩),
      kv.1 ≠ "financeCd" := by
  refine ⟨rfl, rfl, rfl, ?_⟩
  intro kv hkv
  obtain ⟨k⟩ := svc
  cases k with
  | none =>
    simp [serializeParams, requestParams] at hkv
    rcases hkv with rfl | rfl <;> simp
  | some v =>
    simp [serializeParams, requestParams] at hkv
    rcases hkv with rfl | rfl | rfl <;> simp

/-- C10 witness: a concrete call without financeCode serializes the auth
entry but no financeCd entry. -/
theorem financeCd_absent_when_omitted_witness :
    ("auth", "key") ∈ serializeParams
        ((create (some "key")).requestParams
          ⟨FinancialGroupCode.eunhaeng, none, none⟩) ∧
    ("auth", "key").1 ≠ "financeCd" :=
  ⟨by decide,
   (financeCd_absent_when_omitted (create (some "key"))
       FinancialGroupCode.eunhaeng none).2.2.2 ("auth", "key") (by decide)⟩

/-- C1: at the example failure scenario (err_cd 010, server message under
the declared field err_message), the operation does fail with the typed
error carrying code 010 and the request parameters and returns no
payload, but the message carried is undefined — the interceptor reads
result.err_msg while the ApiResponse interface declares err_message — so
the error does not expose the server-provided message string. -/
theorem interceptor_reads_err_msg_not_err_message :
    (create (some "key")).getFinancialCompanies
        ⟨FinancialGroupCode.eunhaeng, none, none⟩ (some failingEnvelope010)
      = Except.error (JsError.serviceError (some "010") none
          { auth := some "key", topFinGrpNo := some "020000",
            financeCd := none, pageNo := some 1 }) ∧
    failingEnvelope010.result.bind ResultFields.err_message
      = some "invalid auth key" :=
  ⟨rfl, rfl⟩

/-! Lemmas about the keyBy join of the example driver. -/

/-- Lookup on a cons cell of the association list. -/
theorem lookupKey_cons (p : String × FinancialCompanyOptions)
    (m : List (String × FinancialCompanyOptions)) (k : String) :
    lookupKey (p :: m) k = if p.1 = k then some p.2 else lookupKey m k := by
  by_cases h : p.1 = k <;> simp [lookupKey, List.find?_cons, h]

/-- Lookup distributes over append through Option.or. -/
theorem lookupKey_append (m₁ m₂ : List (String × FinancialCompanyOptions))
    (k : String) :
    lookupKey (m₁ ++ m₂) k = (lookupKey m₁ k).or (lookupKey m₂ k) := by
  induction m₁ with
  | nil => rfl
  | cons p t ih =>
    rw [List.cons_append, lookupKey_cons, lookupKey_cons]
    by_cases h : p.1 = k <;> simp [h, ih]

/-- A key that no entry carries looks up to none. -/
theorem lookupKey_eq_none_of_any_false
    (m : List (String × FinancialCompanyOptions)) (k : String)
    (h : m.any (fun p => p.1 = k) = false) : lookupKey m k = none := by
  induction m with
  | nil => rfl
  | cons p t ih =>
    have h2 : ¬(p.1 = k) ∧ t.any (fun p => p.1 = k) = false := by
      simpa [List.any_cons] using h
    rw [lookupKey_cons, if_neg h2.1]
    exact ih h2.2

/-- Overwriting the entries holding key k makes k look up to the new value,
provided some entry holds k. -/
theorem lookupKey_map_replace_self
    (m : List (String × FinancialCompanyOptions)) (k : String)
    (v : FinancialCompanyOptions) (h : m.any (fun p => p.1 = k) = true) :
    lookupKey (m.map (fun p => if p.1 = k then (k, v) else p)) k = some v := by
  induction m with
  | nil => simp at h
  | cons p t ih =>
    by_cases hp : p.1 = k
    · simp [List.map_cons, hp, lookupKey_cons]
    · have ht : t.any (fun p => p.1 = k) = true := by
        simpa [List.any_cons, hp] using h
      simp [List.map_cons, hp, lookupKey_cons, ih ht]

/-- Overwriting the entries holding key k leaves every other key's lookup
unchanged. -/
theorem lookupKey_map_replace_ne
    (m : List (String × FinancialCompanyOptions)) (k : String)
    (v : FinancialCompanyOptions) (k₂ : String) (h : k₂ ≠ k) :
    lookupKey (m.map (fun p => if p.1 = k then (k, v) else p)) k₂
      = lookupKey m k₂ := by
  induction m with
  | nil => rfl
  | cons p t ih =>
    by_cases hp : p.1 = k
    · simp [List.map_cons, hp, lookupKey_cons, Ne.symm h, ih]
    · simp [List.map_cons, hp, lookupKey_cons, ih]

/-- After insertReplace, the inserted key looks up to the new value. -/
theorem lookupKey_insertReplace_self
    (m : List (String × FinancialCompanyOptions)) (k : String)
    (v : FinancialCompanyOptions) :
    lookupKey (insertReplace m k v) k = some v := by
  unfold insertReplace
  by_cases hany : m.any (fun p => p.1 = k) = true
  · rw [if_pos hany]
    exact lookupKey_map_replace_self m k v hany
  · rw [if_neg hany, lookupKey_append,
      lookupKey_eq_none_of_any_false m k (by simpa only [Bool.not_eq_true]
        using hany)]
    simp [lookupKey_cons, lookupKey]

/-- After insertReplace, every other key's lookup is unchanged. -/
theorem lookupKey_insertReplace_ne
    (m : List (String × FinancialCompanyOptions)) (k : String)
    (v : FinancialCompanyOptions) (k₂ : String) (h : k₂ ≠ k) :
    lookupKey (insertReplace m k v) k₂ = lookupKey m k₂ := by
  unfold insertReplace
  by_cases hany : m.any (fun p => p.1 = k) = true
  · rw [if_pos hany]
    exact lookupKey_map_replace_ne m k v k₂ h
  · rw [if_neg hany, lookupKey_append]
    have h1 : lookupKey [(k, v)] k₂ = none := by
      simp [lookupKey_cons, Ne.symm h, lookupKey]
    rw [h1]
    cases lookupKey m k₂ <;> rfl

/-- Lookup after folding the keyBy insertion over a list: the last record
of the list whose fin_co_no is k wins, falling back to the accumulator. -/
theorem lookupKey_foldl (l : List FinancialCompanyOptions)
    (m : List (String × FinancialCompanyOptions)) (k : String) :
    lookupKey (l.foldl (fun m o => insertReplace m o.fin_co_no o) m) k
      = ((l.filter (fun o => o.fin_co_no = k)).getLast?).or (lookupKey m k) := by
  induction l generalizing m with
  | nil => rfl
  | cons o t ih =>
    rw [List.foldl_cons, ih]
    by_cases ho : o.fin_co_no = k
    · rw [List.filter_cons_of_pos (by simpa using ho)]
      cases hf : t.filter (fun o => o.fin_co_no = k) with
      | nil =>
        have h2 : lookupKey (insertReplace m o.fin_co_no o) k = some o := by
          rw [← ho]
          exact lookupKey_insertReplace_self m o.fin_co_no o
        rw [h2]
        rfl
      | cons x xs =>
        rw [List.getLast?_cons_cons,
          List.getLast?_eq_getLast (x :: xs) (by simp)]
        rfl
    · rw [List.filter_cons_of_neg (by simpa using ho),
        lookupKey_insertReplace_ne m o.fin_co_no o k (fun hk => ho hk.symm)]

/-- Lookup on the keyBy object: the value stored under k is the last record
of the option list whose fin_co_no is k (last write wins). -/
theorem lookupKey_keyBy (l : List FinancialCompanyOptions) (k : String) :
    lookupKey (keyBy l) k = (l.filter (fun o => o.fin_co_no = k)).getLast? := by
  rw [keyBy, lookupKey_foldl]
  cases (l.filter (fun o => o.fin_co_no = k)).getLast? <;> rfl

/-- Overwriting values in place does not change the key column. -/
theorem map_fst_map_replace
    (m : List (String × FinancialCompanyOptions)) (k : String)
    (v : FinancialCompanyOptions) :
    (m.map (fun p => if p.1 = k then (k, v) else p)).map Prod.fst
      = m.map Prod.fst := by
  induction m with
  | nil => rfl
  | cons p t ih => by_cases hp : p.1 = k <;> simp [hp, ih]

/-- Key column of the association list after one keyBy insertion. -/
theorem map_fst_insertReplace
    (m : List (String × FinancialCompanyOptions)) (k : String)
    (v : FinancialCompanyOptions) :
    (insertReplace m k v).map Prod.fst
      = if m.any (fun p => p.1 = k) then m.map Prod.fst
        else m.map Prod.fst ++ [k] := by
  unfold insertReplace
  by_cases hany : m.any (fun p => p.1 = k) = true
  · rw [if_pos hany, if_pos hany]
    exact map_fst_map_replace m k v
  · rw [if_neg hany, if_neg hany]
    simp

/-- Folding keyBy insertions preserves uniqueness of the key column. -/
theorem keys_nodup_foldl (l : List FinancialCompanyOptions)
    (m : List (String × FinancialCompanyOptions))
    (h : (m.map Prod.fst).Nodup) :
    (((l.foldl (fun m o => insertReplace m o.fin_co_no o) m)).map
        Prod.fst).Nodup := by
  induction l generalizing m with
  | nil => exact h
  | cons o t ih =>
    rw [List.foldl_cons]
    apply ih
    rw [map_fst_insertReplace]
    by_cases hany : m.any (fun p => p.1 = o.fin_co_no) = true
    · rw [if_pos hany]
      exact h
    · rw [if_neg hany]
      have hnot : o.fin_co_no ∉ m.map Prod.fst := by
        intro hmem
        obtain ⟨p, hp, he⟩ := List.mem_map.mp hmem
        exact hany (List.any_eq_true.mpr ⟨p, hp, by simp [he]⟩)
      simp [List.nodup_append, h, hnot]

/-- The keyBy object has a duplicate-free key column. -/
theorem keyBy_keys_nodup (l : List FinancialCompanyOptions) :
    ((keyBy l).map Prod.fst).Nodup :=
  keys_nodup_foldl l [] (by simp)

/-- With unique fin_co_no values, the last matching record is the first. -/
theorem getLast?_filter_of_nodup (l : List FinancialCompanyOptions)
    (k : String) (h : (l.map FinancialCompanyOptions.fin_co_no).Nodup) :
    (l.filter (fun o => o.fin_co_no = k)).getLast?
      = l.find? (fun o => o.fin_co_no = k) := by
  induction l with
  | nil => rfl
  | cons o t ih =>
    rw [List.map_cons, List.nodup_cons] at h
    by_cases ho : o.fin_co_no = k
    · have ht : t.filter (fun o => o.fin_co_no = k) = [] := by
        rw [List.filter_eq_nil_iff]
        intro x hx hpx
        have hxk : x.fin_co_no = k := by simpa using hpx
        exact h.1 (List.mem_map.mpr ⟨x, hx, hxk.trans ho.symm⟩)
      rw [List.filter_cons_of_pos (by simpa using ho), ht,
        List.find?_cons_of_pos t (by simpa using ho)]
      rfl
    · rw [List.filter_cons_of_neg (by simpa using ho),
        List.find?_cons_of_neg t (by simpa using ho)]
      exact ih h.2

/-- C8: keyBy on the option list yields a mapping whose keys are unique and
in which the value stored under any company code is the last option
record in list order carrying that code (last write wins), in particular
whenever two or more records share the code. -/
theorem keyBy_unique_keys_last_write_wins (l : List FinancialCompanyOptions)
    (k : String) :
    ((keyBy l).map Prod.fst).Nodup ∧
    lookupKey (keyBy l) k = (l.filter (fun o => o.fin_co_no = k)).getLast? :=
  ⟨keyBy_keys_nodup l, lookupKey_keyBy l k⟩

/-- C3: with unique company codes in the option list, the merged output has
exactly one entry per base record, in base-list order, each carrying all
base fields plus the matching option record under options (none when no
option record matches); no base entry is dropped or duplicated. -/
theorem mergeJoin_unique_codes_spec (b : List FinancialCompany)
    (o : List FinancialCompanyOptions)
    (h : (o.map FinancialCompanyOptions.fin_co_no).Nodup) :
    (mergeJoin b o).length = b.length ∧
    ∀ i (hb : i < b.length) (hm : i < (mergeJoin b o).length),
      (mergeJoin b o).get ⟨i, hm⟩
        = MergedBank.ofBase (b.get ⟨i, hb⟩)
            (o.find? (fun x => x.fin_co_no = (b.get ⟨i, hb⟩).fin_co_no)) := by
  constructor
  · simp [mergeJoin]
  · intro i hb hm
    have hmap : (mergeJoin b o).get ⟨i, hm⟩
        = MergedBank.ofBase (b.get ⟨i, hb⟩)
            (lookupKey (keyBy o) (b.get ⟨i, hb⟩).fin_co_no) := by
      simp [mergeJoin]
    rw [hmap, lookupKey_keyBy, getLast?_filter_of_nodup o _ h]

/-- C3 witness: a concrete base list of one record and option list of two
records with distinct codes. -/
theorem mergeJoin_unique_codes_spec_witness :
    ([sampleOption, sampleOptionB].map
        FinancialCompanyOptions.fin_co_no).Nodup ∧
    (mergeJoin [sampleCompany] [sampleOption, sampleOptionB]).length
      = [sampleCompany].length :=
  ⟨by decide,
   (mergeJoin_unique_codes_spec [sampleCompany] [sampleOption, sampleOptionB]
      (by decide)).1⟩

end KoreaFss
